import Mathlib

/-!
Shallow embedding of `src/js/PDFRenderer.js` (class `PDFRenderer`) from the
`eigen` repository, together with proofs about its behaviour.

The external PDF library (pdfjs), the DOM and the application shell are
modelled as an explicit environment (`Env`) and as explicit fields of the
renderer state (`RState`): the document registry `documents`, the page element
registry `pageElements`, the tab manager's tab store `tabs`, the viewer's
children, the page-number input, the sidebar's current-page store, raised
alerts and console logs.  Asynchronous awaits are sequential in the source
(single-threaded event loop), so every method is a pure state transformer.
Live (allocated and not yet destroyed) pdfjs document handles are tracked in
`live`, tagged with the tab they were loaded for.
-/

namespace Eigen

/-- Tab identifiers handed out by the external tab manager. -/
abbrev TabId := Nat

/-- The per-tab view state owned by the external tab manager and read /
written by `PDFRenderer` (`tab.zoom`, `tab.rotation`, `tab.pageLayout`,
`tab.currentPage`, `tab.scrollPosition`).  `none` models a JS `undefined`
field. -/
structure Tab where
  zoom : Option ℚ
  rotation : Option Int
  pageLayout : Option String
  currentPage : Option Nat
  scrollPosition : Option ℚ
  deriving Repr, DecidableEq

/-- JS `x || d` on an optional rational: `undefined` and `0` are falsy. -/
def jsOrQ (x : Option ℚ) (d : ℚ) : ℚ :=
  match x with
  | none => d
  | some v => if v = 0 then d else v

/-- JS `x || d` on an optional integer: `undefined` and `0` are falsy. -/
def jsOrI (x : Option Int) (d : Int) : Int :=
  match x with
  | none => d
  | some v => if v = 0 then d else v

/-- JS `x || d` on an optional natural: `undefined` and `0` are falsy. -/
def jsOrN (x : Option Nat) (d : Nat) : Nat :=
  match x with
  | none => d
  | some v => if v = 0 then d else v

/-- A pdfjs document handle (`pdfDoc`): an allocation identity plus its
`numPages` property.  The handle id is drawn from a fresh-allocation counter
so that distinct `getDocument` calls yield distinct handles. -/
structure PdfDoc where
  id : Nat
  numPages : Nat
  deriving Repr, DecidableEq

/-- A DOM bounding rectangle (`getBoundingClientRect`), reduced to the
vertical data the code reads: `top` and `height`. -/
structure Rect where
  top : ℚ
  height : ℚ
  deriving Repr, DecidableEq

/-- `rect.bottom = rect.top + rect.height`. -/
def Rect.bottom (r : Rect) : ℚ := r.top + r.height

/-- A rendered page container `div` as built by `createPageContainer`:
its `data-page` attribute, its CSS size, the canvas backing-store size and
CSS size, its three children (canvas, text layer, annotation layer), whether
the text layer rendered without error, and the annotation layer's
`data-page` / `data-tab` attributes. -/
structure PageContainer where
  pageNum : Nat
  styleWidth : ℚ
  styleHeight : ℚ
  canvasWidth : Int
  canvasHeight : Int
  canvasStyleWidth : ℚ
  canvasStyleHeight : ℚ
  hasCanvas : Bool
  textLayerRendered : Bool
  hasAnnotationLayer : Bool
  annotationPage : Nat
  annotationTab : TabId
  deriving Repr, DecidableEq

/-- The external world: pdfjs viewport computation (a black box from document
id, page number, scale and rotation to a width/height pair), the browser's
`window.devicePixelRatio` (`none` = unavailable), and whether the text-layer
rendering for a given document page throws (`some msg` = throws `msg`). -/
structure Env where
  viewportOf : Nat → Nat → ℚ → Int → ℚ × ℚ
  dpr : Option ℚ
  textLayerFails : Nat → Nat → Option String

/-- The text-layer rendering step inside `createPageContainer`
(`page.getTextContent` + `renderTextLayer` / `TextLayer.render`): either
succeeds or throws with a message, as dictated by the environment. -/
def renderTextLayer (env : Env) (docId pageNum : Nat) : Except String Unit :=
  match env.textLayerFails docId pageNum with
  | some msg => .error msg
  | none => .ok ()

/-- The full mutable state touched by `PDFRenderer`: its two registries, the
tab manager's store, the viewer DOM, the live-handle set, the allocation
counter, the page-number input, the sidebar, alerts, console logs, and the
container's scroll offset. -/
structure RState where
  documents : List (TabId × PdfDoc)
  pageElements : List (TabId × List PageContainer)
  tabs : List (TabId × Tab)
  activeTab : Option TabId
  viewerChildren : List PageContainer
  viewerEmpty : Bool
  viewerTwoPage : Bool
  live : List (Nat × TabId)
  nextId : Nat
  pageNumberInput : Option Nat
  sidebarCurrent : List (TabId × Nat)
  alerts : List String
  logs : List String
  scrollTop : ℚ
  scrolledTo : Option (TabId × Nat)
  deriving Repr, DecidableEq

/-- `Map.get` on an association list (first entry wins; `setA` keeps keys
unique so there is at most one). -/
def lookupA {β : Type} (m : List (TabId × β)) (k : TabId) : Option β :=
  match m with
  | [] => none
  | (k₁, v) :: rest => if k₁ = k then some v else lookupA rest k

/-- `Map.set` on an association list: replace the entry if the key is
present, append otherwise. -/
def setA {β : Type} (m : List (TabId × β)) (k : TabId) (v : β) : List (TabId × β) :=
  match m with
  | [] => [(k, v)]
  | (k₁, v₁) :: rest => if k₁ = k then (k, v) :: rest else (k₁, v₁) :: setA rest k v

/-- `Map.delete` on an association list. -/
def delA {β : Type} (m : List (TabId × β)) (k : TabId) : List (TabId × β) :=
  m.filter (fun p => p.1 ≠ k)

/-- `this.app.tabManager.updateTab(tabId, patch)`: merge a patch into the
stored tab if present, otherwise do nothing. -/
def updateTab (s : RState) (tabId : TabId) (f : Tab → Tab) : RState :=
  match lookupA s.tabs tabId with
  | none => s
  | some tab => { s with tabs := setA s.tabs tabId (f tab) }

/-- `createPageContainer(doc, pageNum, tabId)` (src lines 68-145): reads the
tab's zoom and rotation with `|| 1.0` / `|| 0` defaults, reads
`window.devicePixelRatio || 1`, asks pdfjs for the viewport, sizes the page
container and the canvas (backing store = `Math.floor(dim * dpr)`, CSS size =
logical dim), renders the page, then renders the text layer inside
`try { ... } catch (e) { console.error(...) }` — a text-layer error is
logged and swallowed — and finally appends canvas, text layer and annotation
layer to the container and returns it.  The returned value is the container
paired with the console lines produced. -/
def createPageContainer (env : Env) (doc : PdfDoc) (pageNum : Nat) (tab : Tab)
    (tabId : TabId) : PageContainer × List String :=
  let scale := jsOrQ tab.zoom 1
  let rotation := jsOrI tab.rotation 0
  let dpr := jsOrQ env.dpr 1
  let vp := env.viewportOf doc.id pageNum scale rotation
  let tl := renderTextLayer env doc.id pageNum
  let textOk := match tl with | .ok _ => true | .error _ => false
  let logLines := match tl with
    | .ok _ => []
    | .error e => ["Error rendering text layer: " ++ e]
  ({ pageNum := pageNum
     styleWidth := vp.1
     styleHeight := vp.2
     canvasWidth := ⌊vp.1 * dpr⌋
     canvasHeight := ⌊vp.2 * dpr⌋
     canvasStyleWidth := vp.1
     canvasStyleHeight := vp.2
     hasCanvas := true
     textLayerRendered := textOk
     hasAnnotationLayer := true
     annotationPage := pageNum
     annotationTab := tabId }, logLines)

/-- `renderDocument(tabId)` (src lines 41-66): return early when the tab has
no registered document or no tab-manager entry; otherwise clear the viewer
(`this.viewer.innerHTML = ''`), toggle the two-page CSS class, build one page
container per page for `pageNum = 1 .. doc.numPages` appending each to the
viewer, and store the fresh array in `this.pageElements`. -/
def renderDocument (env : Env) (s : RState) (tabId : TabId) : RState :=
  match lookupA s.documents tabId with
  | none => s
  | some doc =>
    match lookupA s.tabs tabId with
    | none => s
    | some tab =>
      let cleared := { s with viewerChildren := [], viewerEmpty := false,
                              viewerTwoPage := tab.pageLayout == some "two-page" }
      let rendered := (List.range doc.numPages).map
        (fun i => createPageContainer env doc (i + 1) tab tabId)
      let pages := rendered.map Prod.fst
      { cleared with viewerChildren := pages
                     pageElements := setA cleared.pageElements tabId pages
                     logs := cleared.logs ++ (rendered.map Prod.snd).flatten }

/-- `loadDocument(data, tabId)` (src lines 20-39): `data` is modelled by its
outcome — `.ok n` when `getDocument(...).promise` resolves to a document with
`n` pages, `.error msg` when it rejects.  On success the fresh handle is
registered under the tab, an empty page array is installed, the document is
rendered and the handle returned.  On failure the error is logged, a blocking
`alert` is raised, and the error is rethrown. -/
def loadDocument (env : Env) (s : RState) (data : Except String Nat) (tabId : TabId) :
    RState × Except String PdfDoc :=
  match data with
  | .error msg =>
    ({ s with logs := s.logs ++ ["Error loading PDF: " ++ msg]
              alerts := s.alerts ++ ["Error loading PDF: " ++ msg] }, .error msg)
  | .ok n =>
    let pdfDoc : PdfDoc := { id := s.nextId, numPages := n }
    let s₁ := { s with nextId := s.nextId + 1
                       live := (pdfDoc.id, tabId) :: s.live
                       documents := setA s.documents tabId pdfDoc
                       pageElements := setA s.pageElements tabId [] }
    (renderDocument env s₁ tabId, .ok pdfDoc)

/-- `closeDocument(tabId)` (src lines 162-169): destroy the registered handle
if any (remove it from the live set), then delete the tab's entries from both
registries. -/
def closeDocument (s : RState) (tabId : TabId) : RState :=
  let destroyed :=
    match lookupA s.documents tabId with
    | some doc => { s with live := s.live.filter (fun p => p.1 ≠ doc.id) }
    | none => s
  { destroyed with documents := delA destroyed.documents tabId
                   pageElements := delA destroyed.pageElements tabId }

/-- Lines 156-159 of `switchToTab`: `if (tab && tab.scrollPosition)` restore
the container's scroll offset (`0` and `undefined` are falsy). -/
def restoreScroll (s : RState) (tabId : TabId) : RState :=
  match lookupA s.tabs tabId with
  | none => s
  | some tab =>
    match tab.scrollPosition with
    | none => s
    | some sp => if sp = 0 then s else { s with scrollTop := sp }

/-- `switchToTab(tabId)` (src lines 147-160): with no registered document,
show the empty-state placeholder; otherwise re-render and, when the tab has a
truthy saved scroll position, restore it. -/
def switchToTab (env : Env) (s : RState) (tabId : TabId) : RState :=
  match lookupA s.documents tabId with
  | none => { s with viewerChildren := [], viewerEmpty := true }
  | some _ => restoreScroll (renderDocument env s tabId) tabId

/-- `setZoom(tabId, zoom)` (src lines 175-181): store the zoom on the tab and
re-render. -/
def setZoom (env : Env) (s : RState) (tabId : TabId) (zoom : ℚ) : RState :=
  match lookupA s.tabs tabId with
  | none => s
  | some tab =>
    let s₁ := { s with tabs := setA s.tabs tabId { tab with zoom := some zoom } }
    renderDocument env s₁ tabId

/-- `goToPage(tabId, pageNum)` (src lines 212-226): return early when the tab
has no page-element entry or `pageNum` is outside `1 .. pages.length`;
otherwise scroll the target container into view, store `currentPage` on the
tab, and update the page-number input and the sidebar. -/
def goToPage (s : RState) (tabId : TabId) (pageNum : Int) : RState :=
  match lookupA s.pageElements tabId with
  | none => s
  | some pages =>
    if pageNum < 1 ∨ pageNum > (pages.length : Int) then s
    else
      let p := pageNum.toNat
      let s₁ := { s with scrolledTo := some (tabId, p) }
      let s₂ := updateTab s₁ tabId (fun tab => { tab with currentPage := some p })
      { s₂ with pageNumberInput := some p
                sidebarCurrent := setA s₂.sidebarCurrent tabId p }

/-- `setRotation(tabId, rotation)` (src lines 196-206), modelled exactly as
written: it looks the tab up, remembers `tab.currentPage || 1`, re-renders,
and jumps back to the remembered page.  Note that the source never writes the
`rotation` argument into the tab. -/
def setRotation (env : Env) (s : RState) (tabId : TabId) (rotation : Int) : RState :=
  match lookupA s.tabs tabId with
  | none => s
  | some tab =>
    let currentPage := jsOrN tab.currentPage 1
    let s₁ := renderDocument env s tabId
    goToPage s₁ tabId (currentPage : Int)

/-- `setPageLayout(tabId, layout)` (src lines 208-210): as written, it only
re-renders (the `layout` argument is never stored). -/
def setPageLayout (env : Env) (s : RState) (tabId : TabId) (layout : String) : RState :=
  renderDocument env s tabId

/-- The debounce delay in milliseconds passed to `setTimeout` by the scroll
listener (src line 244). -/
def scrollDetectDelayMs : Nat := 100

/-- The scroll event handler installed by `setupScrollListener` (src lines
228-246): with no active tab it does nothing; otherwise it saves the
container's scroll offset on the active tab, clears any pending detection
timeout and schedules `detectCurrentPage` for the active tab after
`scrollDetectDelayMs`.  The pending timeout is threaded explicitly as
`Option (TabId × Nat)` (target tab, delay). -/
def onScroll (s : RState) (pending : Option (TabId × Nat)) (newScrollTop : ℚ) :
    RState × Option (TabId × Nat) :=
  match s.activeTab with
  | none => (s, pending)
  | some tid =>
    let s₁ := updateTab { s with scrollTop := newScrollTop } tid
      (fun tab => { tab with scrollPosition := some newScrollTop })
    (s₁, some (tid, scrollDetectDelayMs))

/-- `r.top <= center && r.bottom >= center`: the page rectangle vertically
contains the container's center. -/
def containsCenter (center : ℚ) (r : Rect) : Bool :=
  decide (r.top ≤ center) && decide (Rect.bottom r ≥ center)

/-- The `for` loop of `detectCurrentPage`: index of the first rectangle
containing the center, scanning in ascending index order and breaking at the
first hit. -/
def firstContainingIdx (center : ℚ) : List Rect → Option Nat
  | [] => none
  | r :: rs =>
    if containsCenter center r then some 0
    else (firstContainingIdx center rs).map (· + 1)

/-- `detectCurrentPage(tabId)` (src lines 248-270): with no page-element
entry, return; otherwise compute the container's vertical center, scan the
page rectangles in order and stop at the first one containing the center;
if the tab exists and its stored `currentPage` differs from the detected
page, store the new page and update the page-number input and the sidebar.
`containerRect` and `geomP` supply the DOM geometry
(`getBoundingClientRect`) of the container and of page `i`. -/
def detectCurrentPage (s : RState) (tabId : TabId) (containerRect : Rect)
    (geomP : Nat → Rect) : RState :=
  match lookupA s.pageElements tabId with
  | none => s
  | some pages =>
    let containerCenter := containerRect.top + containerRect.height / 2
    match firstContainingIdx containerCenter ((List.range pages.length).map geomP) with
    | none => s
    | some i =>
      let pageNum := i + 1
      match lookupA s.tabs tabId with
      | none => s
      | some tab =>
        if tab.currentPage ≠ some pageNum then
          { s with tabs := setA s.tabs tabId { tab with currentPage := some pageNum }
                   pageNumberInput := some pageNum
                   sidebarCurrent := setA s.sidebarCurrent tabId pageNum }
        else s

/-- Firing the pending debounced timeout: runs `detectCurrentPage` for the
scheduled tab. -/
def fireScrollTimeout (s : RState) (pending : Option (TabId × Nat))
    (containerRect : Rect) (geomP : Nat → Rect) : RState :=
  match pending with
  | none => s
  | some (tid, _) => detectCurrentPage s tid containerRect geomP

/-- The operations of the renderer's public interface, for invariant
reasoning over arbitrary call sequences. -/
inductive Op where
  | load (data : Except String Nat) (tabId : TabId)
  | render (tabId : TabId)
  | switchTab (tabId : TabId)
  | close (tabId : TabId)
  | zoom (tabId : TabId) (z : ℚ)
  | rotate (tabId : TabId) (r : Int)
  | layout (tabId : TabId) (l : String)
  | goTo (tabId : TabId) (p : Int)

/-- One public call. -/
def step (env : Env) (s : RState) : Op → RState
  | .load data tabId => (loadDocument env s data tabId).1
  | .render tabId => renderDocument env s tabId
  | .switchTab tabId => switchToTab env s tabId
  | .close tabId => closeDocument s tabId
  | .zoom tabId z => setZoom env s tabId z
  | .rotate tabId r => setRotation env s tabId r
  | .layout tabId l => setPageLayout env s tabId l
  | .goTo tabId p => goToPage s tabId p

/-- A sequence of public calls. -/
def run (env : Env) (s : RState) (ops : List Op) : RState :=
  ops.foldl (step env) s

/-- The constructor (src lines 10-18): both registries start empty; the tab
manager's store and active tab are owned by the shell and arbitrary. -/
def initState (tabs : List (TabId × Tab)) (active : Option TabId) : RState :=
  { documents := []
    pageElements := []
    tabs := tabs
    activeTab := active
    viewerChildren := []
    viewerEmpty := false
    viewerTwoPage := false
    live := []
    nextId := 0
    pageNumberInput := none
    sidebarCurrent := []
    alerts := []
    logs := []
    scrollTop := 0
    scrolledTo := none }

/-! ### Association-list lemmas -/

theorem lookupA_setA {β : Type} (m : List (TabId × β)) (k : TabId) (v : β) (k' : TabId) :
    lookupA (setA m k v) k' = if k = k' then some v else lookupA m k' := by
  induction m with
  | nil => by_cases h : k = k' <;> simp [setA, lookupA, h]
  | cons hd tl ih =>
    obtain ⟨k₁, v₁⟩ := hd
    by_cases h₁ : k₁ = k
    · subst h₁
      by_cases h₂ : k₁ = k' <;> simp [setA, lookupA, h₂]
    · have h₁' : ¬k = k₁ := fun h => h₁ h.symm
      by_cases h₂ : k₁ = k'
      · subst h₂
        simp [setA, lookupA, h₁, h₁']
      · simp [setA, lookupA, h₁, h₂, ih]

theorem lookupA_delA {β : Type} (m : List (TabId × β)) (k k' : TabId) :
    lookupA (delA m k) k' = if k = k' then none else lookupA m k' := by
  induction m with
  | nil => simp [delA, lookupA]
  | cons hd tl ih =>
    obtain ⟨k₁, v₁⟩ := hd
    by_cases h₁ : k₁ = k
    · subst h₁
      by_cases h₂ : k₁ = k' <;>
        simpa [delA, lookupA, h₂] using ih
    · by_cases h₂ : k₁ = k'
      · subst h₂
        simp [delA, lookupA, h₁, Ne.symm h₁]
      · simpa [delA, lookupA, h₁, h₂] using ih

theorem delA_eq_self {β : Type} (m : List (TabId × β)) (k : TabId)
    (h : lookupA m k = none) : delA m k = m := by
  induction m with
  | nil => rfl
  | cons hd tl ih =>
    obtain ⟨k₁, v₁⟩ := hd
    by_cases h₁ : k₁ = k
    · simp [lookupA, h₁] at h
    · simp [lookupA, h₁] at h
      simp [delA] at ih ⊢
      exact ⟨h₁, ih h⟩

/-! ### Field-preservation lemmas

`renderDocument`, `goToPage`, `updateTab`, `switchToTab`, `setZoom`,
`setRotation` and `setPageLayout` never touch the document registry, the
live-handle set or the allocation counter; several of them also leave other
fields alone.  These facts drive the invariant proofs. -/

theorem updateTab_documents (s : RState) (t : TabId) (f : Tab → Tab) :
    (updateTab s t f).documents = s.documents := by
  unfold updateTab; split <;> rfl

theorem updateTab_pageElements (s : RState) (t : TabId) (f : Tab → Tab) :
    (updateTab s t f).pageElements = s.pageElements := by
  unfold updateTab; split <;> rfl

theorem updateTab_live (s : RState) (t : TabId) (f : Tab → Tab) :
    (updateTab s t f).live = s.live := by
  unfold updateTab; split <;> rfl

theorem updateTab_nextId (s : RState) (t : TabId) (f : Tab → Tab) :
    (updateTab s t f).nextId = s.nextId := by
  unfold updateTab; split <;> rfl

theorem updateTab_pageNumberInput (s : RState) (t : TabId) (f : Tab → Tab) :
    (updateTab s t f).pageNumberInput = s.pageNumberInput := by
  unfold updateTab; split <;> rfl

theorem updateTab_sidebarCurrent (s : RState) (t : TabId) (f : Tab → Tab) :
    (updateTab s t f).sidebarCurrent = s.sidebarCurrent := by
  unfold updateTab; split <;> rfl

theorem renderDocument_documents (env : Env) (s : RState) (t : TabId) :
    (renderDocument env s t).documents = s.documents := by
  unfold renderDocument; split
  · rfl
  · split <;> rfl

theorem renderDocument_live (env : Env) (s : RState) (t : TabId) :
    (renderDocument env s t).live = s.live := by
  unfold renderDocument; split
  · rfl
  · split <;> rfl

theorem renderDocument_nextId (env : Env) (s : RState) (t : TabId) :
    (renderDocument env s t).nextId = s.nextId := by
  unfold renderDocument; split
  · rfl
  · split <;> rfl

theorem goToPage_documents (s : RState) (t : TabId) (p : Int) :
    (goToPage s t p).documents = s.documents := by
  unfold goToPage; split
  · rfl
  · split
    · rfl
    · simp [updateTab_documents]

theorem goToPage_pageElements (s : RState) (t : TabId) (p : Int) :
    (goToPage s t p).pageElements = s.pageElements := by
  unfold goToPage; split
  · rfl
  · split
    · rfl
    · simp [updateTab_pageElements]

theorem goToPage_live (s : RState) (t : TabId) (p : Int) :
    (goToPage s t p).live = s.live := by
  unfold goToPage; split
  · rfl
  · split
    · rfl
    · simp [updateTab_live]

theorem goToPage_nextId (s : RState) (t : TabId) (p : Int) :
    (goToPage s t p).nextId = s.nextId := by
  unfold goToPage; split
  · rfl
  · split
    · rfl
    · simp [updateTab_nextId]

theorem restoreScroll_documents (s : RState) (t : TabId) :
    (restoreScroll s t).documents = s.documents := by
  unfold restoreScroll; split
  · rfl
  · split
    · rfl
    · split <;> rfl

theorem restoreScroll_pageElements (s : RState) (t : TabId) :
    (restoreScroll s t).pageElements = s.pageElements := by
  unfold restoreScroll; split
  · rfl
  · split
    · rfl
    · split <;> rfl

theorem restoreScroll_live (s : RState) (t : TabId) :
    (restoreScroll s t).live = s.live := by
  unfold restoreScroll; split
  · rfl
  · split
    · rfl
    · split <;> rfl

theorem restoreScroll_nextId (s : RState) (t : TabId) :
    (restoreScroll s t).nextId = s.nextId := by
  unfold restoreScroll; split
  · rfl
  · split
    · rfl
    · split <;> rfl

theorem switchToTab_documents (env : Env) (s : RState) (t : TabId) :
    (switchToTab env s t).documents = s.documents := by
  unfold switchToTab; split
  · rfl
  · rw [restoreScroll_documents, renderDocument_documents]

theorem switchToTab_live (env : Env) (s : RState) (t : TabId) :
    (switchToTab env s t).live = s.live := by
  unfold switchToTab; split
  · rfl
  · rw [restoreScroll_live, renderDocument_live]

theorem switchToTab_nextId (env : Env) (s : RState) (t : TabId) :
    (switchToTab env s t).nextId = s.nextId := by
  unfold switchToTab; split
  · rfl
  · rw [restoreScroll_nextId, renderDocument_nextId]

theorem setZoom_documents (env : Env) (s : RState) (t : TabId) (z : ℚ) :
    (setZoom env s t z).documents = s.documents := by
  unfold setZoom; split
  · rfl
  · simp [renderDocument_documents]

theorem setZoom_live (env : Env) (s : RState) (t : TabId) (z : ℚ) :
    (setZoom env s t z).live = s.live := by
  unfold setZoom; split
  · rfl
  · simp [renderDocument_live]

theorem setZoom_nextId (env : Env) (s : RState) (t : TabId) (z : ℚ) :
    (setZoom env s t z).nextId = s.nextId := by
  unfold setZoom; split
  · rfl
  · simp [renderDocument_nextId]

theorem setRotation_documents (env : Env) (s : RState) (t : TabId) (r : Int) :
    (setRotation env s t r).documents = s.documents := by
  unfold setRotation; split
  · rfl
  · simp [goToPage_documents, renderDocument_documents]

theorem renderDocument_eq_of_noTab (env : Env) (s : RState) (t : TabId)
    (h : lookupA s.tabs t = none) : renderDocument env s t = s := by
  unfold renderDocument
  cases hd : lookupA s.documents t with
  | none => rfl
  | some doc => rw [h]

theorem setRotation_pageElements (env : Env) (s : RState) (t : TabId) (r : Int) :
    (setRotation env s t r).pageElements = (renderDocument env s t).pageElements := by
  unfold setRotation
  cases h : lookupA s.tabs t with
  | none => rw [renderDocument_eq_of_noTab env s t h]
  | some tab =>
    dsimp only
    rw [goToPage_pageElements]

theorem setRotation_live (env : Env) (s : RState) (t : TabId) (r : Int) :
    (setRotation env s t r).live = s.live := by
  unfold setRotation; split
  · rfl
  · simp [goToPage_live, renderDocument_live]

theorem setRotation_nextId (env : Env) (s : RState) (t : TabId) (r : Int) :
    (setRotation env s t r).nextId = s.nextId := by
  unfold setRotation; split
  · rfl
  · simp [goToPage_nextId, renderDocument_nextId]

theorem closeDocument_documents (s : RState) (t : TabId) :
    (closeDocument s t).documents = delA s.documents t := by
  unfold closeDocument; split <;> rfl

theorem closeDocument_pageElements (s : RState) (t : TabId) :
    (closeDocument s t).pageElements = delA s.pageElements t := by
  unfold closeDocument; split <;> rfl

theorem closeDocument_nextId (s : RState) (t : TabId) :
    (closeDocument s t).nextId = s.nextId := by
  unfold closeDocument; split <;> rfl

theorem closeDocument_live_some (s : RState) (t : TabId) (doc : PdfDoc)
    (h : lookupA s.documents t = some doc) :
    (closeDocument s t).live = s.live.filter (fun p => p.1 ≠ doc.id) := by
  unfold closeDocument; rw [h]

theorem closeDocument_live_none (s : RState) (t : TabId)
    (h : lookupA s.documents t = none) :
    (closeDocument s t).live = s.live := by
  unfold closeDocument; rw [h]

theorem closeDocument_eq_self (s : RState) (t : TabId)
    (hd : lookupA s.documents t = none) (hp : lookupA s.pageElements t = none) :
    closeDocument s t = s := by
  unfold closeDocument
  rw [hd]
  show ({ s with documents := delA s.documents t,
                 pageElements := delA s.pageElements t } : RState) = s
  rw [delA_eq_self _ _ hd, delA_eq_self _ _ hp]

/-! ### The registry-domain invariant (both registries always cover the same
tabs) -/

/-- A tab has a document-registry entry exactly when it has a
page-element-registry entry. -/
def SyncInv (s : RState) : Prop :=
  ∀ t, (lookupA s.documents t).isSome = (lookupA s.pageElements t).isSome

theorem renderDocument_sync (env : Env) (s : RState) (t : TabId) (h : SyncInv s) :
    SyncInv (renderDocument env s t) := by
  unfold renderDocument
  cases hd : lookupA s.documents t with
  | none => exact h
  | some doc =>
    cases ht : lookupA s.tabs t with
    | none => exact h
    | some tab =>
      intro t'
      show (lookupA s.documents t').isSome = (lookupA (setA s.pageElements t _) t').isSome
      rw [lookupA_setA]
      by_cases he : t = t'
      · rw [if_pos he, ← he, hd]; rfl
      · rw [if_neg he]; exact h t'

theorem loadDocument_sync (env : Env) (s : RState) (data : Except String Nat)
    (t : TabId) (h : SyncInv s) : SyncInv (loadDocument env s data t).1 := by
  cases data with
  | error msg => intro t'; exact h t'
  | ok n =>
    apply renderDocument_sync
    intro t'
    show (lookupA (setA s.documents t _) t').isSome =
      (lookupA (setA s.pageElements t _) t').isSome
    rw [lookupA_setA, lookupA_setA]
    by_cases he : t = t'
    · rw [if_pos he, if_pos he]; rfl
    · rw [if_neg he, if_neg he]; exact h t'

theorem closeDocument_sync (s : RState) (t : TabId) (h : SyncInv s) :
    SyncInv (closeDocument s t) := by
  intro t'
  rw [closeDocument_documents, closeDocument_pageElements, lookupA_delA, lookupA_delA]
  by_cases he : t = t'
  · rw [if_pos he, if_pos he]; rfl
  · rw [if_neg he, if_neg he]; exact h t'

theorem switchToTab_sync (env : Env) (s : RState) (t : TabId) (h : SyncInv s) :
    SyncInv (switchToTab env s t) := by
  unfold switchToTab
  cases hd : lookupA s.documents t with
  | none => intro t'; exact h t'
  | some doc =>
    intro t'
    rw [restoreScroll_documents, restoreScroll_pageElements]
    exact renderDocument_sync env s t h t'

theorem setZoom_sync (env : Env) (s : RState) (t : TabId) (z : ℚ) (h : SyncInv s) :
    SyncInv (setZoom env s t z) := by
  unfold setZoom
  cases ht : lookupA s.tabs t with
  | none => exact h
  | some tab =>
    apply renderDocument_sync
    intro t'; exact h t'

theorem goToPage_sync (s : RState) (t : TabId) (p : Int) (h : SyncInv s) :
    SyncInv (goToPage s t p) := by
  intro t'
  rw [goToPage_documents, goToPage_pageElements]
  exact h t'

theorem setRotation_sync (env : Env) (s : RState) (t : TabId) (r : Int) (h : SyncInv s) :
    SyncInv (setRotation env s t r) := by
  intro t'
  rw [setRotation_documents, setRotation_pageElements,
    ← renderDocument_documents env s t]
  exact renderDocument_sync env s t h t'

theorem step_sync (env : Env) (s : RState) (op : Op) (h : SyncInv s) :
    SyncInv (step env s op) := by
  cases op with
  | load data t => exact loadDocument_sync env s data t h
  | render t => exact renderDocument_sync env s t h
  | switchTab t => exact switchToTab_sync env s t h
  | close t => exact closeDocument_sync s t h
  | zoom t z => exact setZoom_sync env s t z h
  | rotate t r => exact setRotation_sync env s t r h
  | layout t l => exact renderDocument_sync env s t h
  | goTo t p => exact goToPage_sync s t p h

theorem run_sync (env : Env) (ops : List Op) (s : RState) (h : SyncInv s) :
    SyncInv (run env s ops) := by
  induction ops generalizing s with
  | nil => exact h
  | cons op rest ih => exact ih _ (step_sync env s op h)

/-! ### The live-handle invariant -/

/-- Every registered handle is live, tagged with its tab, and was allocated
below the allocation counter; and a handle id is registered under at most one
tab. -/
def DocInv (s : RState) : Prop :=
  (∀ t d, lookupA s.documents t = some d → (d.id, t) ∈ s.live ∧ d.id < s.nextId) ∧
  (∀ t₁ t₂ d₁ d₂, lookupA s.documents t₁ = some d₁ → lookupA s.documents t₂ = some d₂ →
    d₁.id = d₂.id → t₁ = t₂)

theorem DocInv_congr (s s' : RState) (hdoc : s'.documents = s.documents)
    (hlive : s'.live = s.live) (hnext : s'.nextId = s.nextId) (h : DocInv s) :
    DocInv s' := by
  unfold DocInv
  rw [hdoc, hlive, hnext]
  exact h

theorem loadDocument_docInv (env : Env) (s : RState) (data : Except String Nat)
    (t : TabId) (h : DocInv s) : DocInv (loadDocument env s data t).1 := by
  cases data with
  | error msg => exact DocInv_congr s _ rfl rfl rfl h
  | ok n =>
    have hinv : DocInv { s with nextId := s.nextId + 1
                                live := (s.nextId, t) :: s.live
                                documents := setA s.documents t { id := s.nextId, numPages := n }
                                pageElements := setA s.pageElements t [] } := by
      constructor
      · intro t' d hd
        show (d.id, t') ∈ (s.nextId, t) :: s.live ∧ d.id < s.nextId + 1
        rw [show ({ s with nextId := s.nextId + 1
                           live := (s.nextId, t) :: s.live
                           documents := setA s.documents t { id := s.nextId, numPages := n }
                           pageElements := setA s.pageElements t [] } : RState).documents =
          setA s.documents t { id := s.nextId, numPages := n } from rfl, lookupA_setA] at hd
        by_cases he : t = t'
        · rw [if_pos he] at hd
          injection hd with hd
          rw [← hd, ← he]
          exact ⟨List.mem_cons_self _ _, Nat.lt_succ_self _⟩
        · rw [if_neg he] at hd
          obtain ⟨hmem, hlt⟩ := h.1 t' d hd
          exact ⟨List.mem_cons_of_mem _ hmem, Nat.lt_succ_of_lt hlt⟩
      · intro t₁ t₂ d₁ d₂ h₁ h₂ hid
        rw [show ({ s with nextId := s.nextId + 1
                           live := (s.nextId, t) :: s.live
                           documents := setA s.documents t { id := s.nextId, numPages := n }
                           pageElements := setA s.pageElements t [] } : RState).documents =
          setA s.documents t { id := s.nextId, numPages := n } from rfl, lookupA_setA] at h₁ h₂
        by_cases e₁ : t = t₁
        · by_cases e₂ : t = t₂
          · rw [← e₁, ← e₂]
          · rw [if_pos e₁] at h₁
            rw [if_neg e₂] at h₂
            injection h₁ with h₁
            obtain ⟨_, hlt⟩ := h.1 t₂ d₂ h₂
            rw [← hid, ← h₁] at hlt
            simp at hlt
        · by_cases e₂ : t = t₂
          · rw [if_neg e₁] at h₁
            rw [if_pos e₂] at h₂
            injection h₂ with h₂
            obtain ⟨_, hlt⟩ := h.1 t₁ d₁ h₁
            rw [hid, ← h₂] at hlt
            simp at hlt
          · rw [if_neg e₁] at h₁
            rw [if_neg e₂] at h₂
            exact h.2 t₁ t₂ d₁ d₂ h₁ h₂ hid
    exact DocInv_congr _ _ (renderDocument_documents env _ t) (renderDocument_live env _ t)
      (renderDocument_nextId env _ t) hinv

theorem closeDocument_docInv (s : RState) (t : TabId) (h : DocInv s) :
    DocInv (closeDocument s t) := by
  cases hd : lookupA s.documents t with
  | none =>
    constructor
    · intro t' d hd'
      rw [closeDocument_documents, lookupA_delA] at hd'
      rw [closeDocument_live_none s t hd, closeDocument_nextId]
      by_cases he : t = t'
      · rw [if_pos he] at hd'; cases hd'
      · rw [if_neg he] at hd'
        exact h.1 t' d hd'
    · intro t₁ t₂ d₁ d₂ h₁ h₂ hid
      rw [closeDocument_documents, lookupA_delA] at h₁ h₂
      by_cases e₁ : t = t₁
      · rw [if_pos e₁] at h₁; cases h₁
      · by_cases e₂ : t = t₂
        · rw [if_pos e₂] at h₂; cases h₂
        · rw [if_neg e₁] at h₁
          rw [if_neg e₂] at h₂
          exact h.2 t₁ t₂ d₁ d₂ h₁ h₂ hid
  | some doc =>
    constructor
    · intro t' d hd'
      rw [closeDocument_documents, lookupA_delA] at hd'
      rw [closeDocument_live_some s t doc hd, closeDocument_nextId]
      by_cases he : t = t'
      · rw [if_pos he] at hd'; cases hd'
      · rw [if_neg he] at hd'
        obtain ⟨hmem, hlt⟩ := h.1 t' d hd'
        refine ⟨List.mem_filter.2 ⟨hmem, ?_⟩, hlt⟩
        simp only [ne_eq, decide_eq_true_eq]
        intro hcontra
        exact he (h.2 t' t d doc hd' hd hcontra).symm
    · intro t₁ t₂ d₁ d₂ h₁ h₂ hid
      rw [closeDocument_documents, lookupA_delA] at h₁ h₂
      by_cases e₁ : t = t₁
      · rw [if_pos e₁] at h₁; cases h₁
      · by_cases e₂ : t = t₂
        · rw [if_pos e₂] at h₂; cases h₂
        · rw [if_neg e₁] at h₁
          rw [if_neg e₂] at h₂
          exact h.2 t₁ t₂ d₁ d₂ h₁ h₂ hid

theorem step_docInv (env : Env) (s : RState) (op : Op) (h : DocInv s) :
    DocInv (step env s op) := by
  cases op with
  | load data t => exact loadDocument_docInv env s data t h
  | render t =>
    exact DocInv_congr s _ (renderDocument_documents env s t) (renderDocument_live env s t)
      (renderDocument_nextId env s t) h
  | switchTab t =>
    exact DocInv_congr s _ (switchToTab_documents env s t) (switchToTab_live env s t)
      (switchToTab_nextId env s t) h
  | close t => exact closeDocument_docInv s t h
  | zoom t z =>
    exact DocInv_congr s _ (setZoom_documents env s t z) (setZoom_live env s t z)
      (setZoom_nextId env s t z) h
  | rotate t r =>
    exact DocInv_congr s _ (setRotation_documents env s t r) (setRotation_live env s t r)
      (setRotation_nextId env s t r) h
  | layout t l =>
    exact DocInv_congr s _ (renderDocument_documents env s t) (renderDocument_live env s t)
      (renderDocument_nextId env s t) h
  | goTo t p =>
    exact DocInv_congr s _ (goToPage_documents s t p) (goToPage_live s t p)
      (goToPage_nextId s t p) h

theorem run_docInv (env : Env) (ops : List Op) (s : RState) (h : DocInv s) :
    DocInv (run env s ops) := by
  induction ops generalizing s with
  | nil => exact h
  | cons op rest ih => exact ih _ (step_docInv env s op h)

theorem initState_sync (tabs : List (TabId × Tab)) (active : Option TabId) :
    SyncInv (initState tabs active) := fun _ => rfl

theorem initState_docInv (tabs : List (TabId × Tab)) (active : Option TabId) :
    DocInv (initState tabs active) := by
  constructor
  · intro t d hd; cases hd
  · intro t₁ t₂ d₁ d₂ h₁ h₂ _; cases h₁

/-! ### Minimality of the current-page scan -/

theorem firstContainingIdx_mem (center : ℚ) (rects : List Rect) (i : Nat)
    (h : firstContainingIdx center rects = some i) :
    ∃ hi : i < rects.length, containsCenter center (rects.get ⟨i, hi⟩) = true ∧
      ∀ j (hj : j < rects.length), j < i → containsCenter center (rects.get ⟨j, hj⟩) = false := by
  induction rects generalizing i with
  | nil => cases h
  | cons r rs ih =>
    by_cases hc : containsCenter center r = true
    · unfold firstContainingIdx at h
      rw [if_pos hc] at h
      injection h with h
      subst h
      exact ⟨Nat.succ_pos _, hc, fun j hj hji => absurd hji (Nat.not_lt_zero j)⟩
    · unfold firstContainingIdx at h
      rw [if_neg hc] at h
      cases hf : firstContainingIdx center rs with
      | none => rw [hf] at h; cases h
      | some i₀ =>
        rw [hf] at h
        injection h with h
        obtain ⟨hi₀, hc₀, hmin⟩ := ih i₀ hf
        subst h
        refine ⟨Nat.succ_lt_succ hi₀, hc₀, ?_⟩
        intro j hj hji
        cases j with
        | zero => simpa using hc
        | succ j' => exact hmin j' (Nat.lt_of_succ_lt_succ hj) (Nat.lt_of_succ_lt_succ hji)

/-! ### Concrete fixtures used by witnesses and counterexamples -/

/-- A concrete environment: a viewport of logical size `100×200` at scale 1
and rotation 0 (swapped at other rotations), device pixel ratio 2, no
text-layer failures. -/
def envW : Env :=
  { viewportOf := fun _ _ _ r => if r = 0 then (100, 200) else (200, 100)
    dpr := some 2
    textLayerFails := fun _ _ => none }

/-- A concrete environment with an unavailable device pixel ratio and a
text layer that always throws "boom". -/
def envTL : Env :=
  { viewportOf := fun _ _ _ _ => (100, 200)
    dpr := none
    textLayerFails := fun _ _ => some "boom" }

/-- A concrete tab: zoom 1, rotation 0, current page 1. -/
def tabW : Tab :=
  { zoom := some 1, rotation := some 0, pageLayout := none,
    currentPage := some 1, scrollPosition := none }

/-- The state after loading a two-page document into tab 0. -/
def sW : RState := run envW (initState [(0, tabW)] (some 0)) [Op.load (Except.ok 2) 0]

/-- Page geometry for the detection witness: page 0 occupies `[0, 30)`,
page 1 occupies `[30, 130)`. -/
def geomW : Nat → Rect := fun i =>
  if i = 0 then { top := 0, height := 30 } else { top := 30, height := 100 }

/-- Container geometry for the detection witness: `[0, 100)`, center 50. -/
def rectW : Rect := { top := 0, height := 100 }

/-! ### The claims -/

/-- Claim C1: for every tab with a loaded document and a tab-manager entry,
`renderDocument` clears the viewer and rebuilds exactly `doc.numPages` page
containers in ascending page order `1 .. numPages` — each built afresh from
the document and the current tab state — and replaces the tab's
page-element-registry entry with exactly this fresh sequence; the result
does not depend on the previously registered sequence. -/
theorem renderDocument_rebuilds_fresh_sequence (env : Env) (s : RState) (tabId : TabId)
    (doc : PdfDoc) (tab : Tab)
    (hdoc : lookupA s.documents tabId = some doc)
    (htab : lookupA s.tabs tabId = some tab) :
    (renderDocument env s tabId).viewerChildren =
      (List.range doc.numPages).map (fun i => (createPageContainer env doc (i + 1) tab tabId).1) ∧
    lookupA (renderDocument env s tabId).pageElements tabId =
      some ((List.range doc.numPages).map
        (fun i => (createPageContainer env doc (i + 1) tab tabId).1)) ∧
    (renderDocument env s tabId).viewerChildren.length = doc.numPages ∧
    (renderDocument env s tabId).viewerChildren.map PageContainer.pageNum =
      (List.range doc.numPages).map (· + 1) := by
  simp only [renderDocument, hdoc, htab]
  refine ⟨?_, ?_, ?_, ?_⟩
  · rw [List.map_map]; rfl
  · rw [lookupA_setA, if_pos rfl, List.map_map]; rfl
  · rw [List.map_map, List.length_map, List.length_range]
  · rw [List.map_map, List.map_map]; rfl

/-- Witness for C1: in the concrete loaded state `sW`, re-rendering tab 0
yields page numbers `[1, 2]` and a two-element sequence. -/
theorem renderDocument_rebuilds_fresh_sequence_witness :
    (renderDocument envW sW 0).viewerChildren.map PageContainer.pageNum = [1, 2] ∧
    (renderDocument envW sW 0).viewerChildren.length = 2 := by
  have h := renderDocument_rebuilds_fresh_sequence envW sW 0 { id := 0, numPages := 2 } tabW
    (by decide) (by decide)
  refine ⟨?_, h.2.2.1⟩
  rw [h.2.2.2]
  decide

/-- Claim C2: a failed load raises a user-facing alert and rethrows the
error (no handle is returned, the registry is untouched); a successful load
returns the fresh handle and registers it under the given tab. -/
theorem loadDocument_alerts_and_rethrows (env : Env) (s : RState) (tabId : TabId) :
    (∀ msg, (loadDocument env s (Except.error msg) tabId).2 = Except.error msg ∧
      (loadDocument env s (Except.error msg) tabId).1.alerts =
        s.alerts ++ ["Error loading PDF: " ++ msg] ∧
      (loadDocument env s (Except.error msg) tabId).1.documents = s.documents) ∧
    (∀ n, (loadDocument env s (Except.ok n) tabId).2 =
        Except.ok ({ id := s.nextId, numPages := n } : PdfDoc) ∧
      lookupA (loadDocument env s (Except.ok n) tabId).1.documents tabId =
        some { id := s.nextId, numPages := n }) := by
  constructor
  · intro msg; exact ⟨rfl, rfl, rfl⟩
  · intro n
    refine ⟨rfl, ?_⟩
    rw [show (loadDocument env s (Except.ok n) tabId).1.documents =
      setA s.documents tabId { id := s.nextId, numPages := n } from
        (renderDocument_documents env _ tabId), lookupA_setA, if_pos rfl]

/-- Claim C3: when text-layer rendering throws, `createPageContainer` logs
the error and swallows it — it still returns (its type is total) a page
container holding the canvas and the annotation layer for the right page,
merely with `textLayerRendered = false`. -/
theorem textLayer_error_swallowed (env : Env) (doc : PdfDoc) (pageNum : Nat) (tab : Tab)
    (tabId : TabId) (msg : String)
    (h : renderTextLayer env doc.id pageNum = Except.error msg) :
    (createPageContainer env doc pageNum tab tabId).1.hasCanvas = true ∧
    (createPageContainer env doc pageNum tab tabId).1.hasAnnotationLayer = true ∧
    (createPageContainer env doc pageNum tab tabId).1.textLayerRendered = false ∧
    (createPageContainer env doc pageNum tab tabId).2 =
      ["Error rendering text layer: " ++ msg] ∧
    (createPageContainer env doc pageNum tab tabId).1.pageNum = pageNum := by
  simp [createPageContainer, h]

/-- Witness for C3: with the always-throwing text layer of `envTL`, the page
container is still produced, canvas and annotation layer included. -/
theorem textLayer_error_swallowed_witness :
    renderTextLayer envTL 0 1 = Except.error "boom" ∧
    (createPageContainer envTL { id := 0, numPages := 1 } 1 tabW 0).1.hasCanvas = true ∧
    (createPageContainer envTL { id := 0, numPages := 1 } 1 tabW 0).1.textLayerRendered = false := by
  have h := textLayer_error_swallowed envTL { id := 0, numPages := 1 } 1 tabW 0 "boom" rfl
  exact ⟨rfl, h.1, h.2.2.1⟩

/-- Claim C4 counterexample: starting from the constructor state, loading a
document into tab 0 and then loading another into the same tab leaves two
live (never-destroyed) handles both loaded for tab 0 — `loadDocument`
overwrites the registry entry without destroying the previous handle. -/
theorem double_load_leaves_two_live_handles :
    ((run envW (initState [] none)
        [Op.load (Except.ok 1) 0, Op.load (Except.ok 1) 0]).live.filter
      (fun p => p.2 = 0)).length = 2 ∧
    ¬ ((run envW (initState [] none)
        [Op.load (Except.ok 1) 0, Op.load (Except.ok 1) 0]).live.filter
      (fun p => p.2 = 0)).length ≤ 1 := by decide

/-- Claim C4 (amended): over every operation sequence, the document registry
associates at most one handle with each tab and that registered handle is
always live (a handle id is registered under at most one tab); however, a
handle displaced by a reload is merely unregistered, not destroyed. -/
theorem registered_handle_live_unique (env : Env) (tabs₀ : List (TabId × Tab))
    (active : Option TabId) (ops : List Op) (t : TabId) (doc : PdfDoc)
    (h : lookupA (run env (initState tabs₀ active) ops).documents t = some doc) :
    (doc.id, t) ∈ (run env (initState tabs₀ active) ops).live ∧
    ∀ t' doc', lookupA (run env (initState tabs₀ active) ops).documents t' = some doc' →
      doc'.id = doc.id → t' = t := by
  have hinv := run_docInv env ops (initState tabs₀ active) (initState_docInv tabs₀ active)
  exact ⟨(hinv.1 t doc h).1, fun t' doc' h' hid => hinv.2 t' t doc' doc h' h hid⟩

/-- Witness for the amended C4: after loading into tab 0, the registered
handle is live. -/
theorem registered_handle_live_unique_witness :
    lookupA sW.documents 0 = some { id := 0, numPages := 2 } ∧
    ((0 : Nat), (0 : TabId)) ∈ sW.live := by
  have h := registered_handle_live_unique envW [(0, tabW)] (some 0)
    [Op.load (Except.ok 2) 0] 0 { id := 0, numPages := 2 } (by decide)
  exact ⟨by decide, h.1⟩

/-- Claim C5: in every reachable state, closing a tab with a registered
document destroys the handle (no live entry with its id remains) and removes
the tab's entries from both registries; closing a tab with no registered
document leaves the state completely unchanged. -/
theorem closeDocument_destroys_and_clears (env : Env) (tabs₀ : List (TabId × Tab))
    (active : Option TabId) (ops : List Op) (t : TabId) :
    (∀ doc, lookupA (run env (initState tabs₀ active) ops).documents t = some doc →
      lookupA (closeDocument (run env (initState tabs₀ active) ops) t).documents t = none ∧
      lookupA (closeDocument (run env (initState tabs₀ active) ops) t).pageElements t = none ∧
      ∀ t', (doc.id, t') ∉ (closeDocument (run env (initState tabs₀ active) ops) t).live) ∧
    (lookupA (run env (initState tabs₀ active) ops).documents t = none →
      closeDocument (run env (initState tabs₀ active) ops) t =
        run env (initState tabs₀ active) ops) := by
  constructor
  · intro doc hdoc
    refine ⟨?_, ?_, ?_⟩
    · rw [closeDocument_documents, lookupA_delA, if_pos rfl]
    · rw [closeDocument_pageElements, lookupA_delA, if_pos rfl]
    · intro t' hmem
      rw [closeDocument_live_some _ _ _ hdoc] at hmem
      have := (List.mem_filter.1 hmem).2
      simp at this
  · intro hdoc
    have hsync := run_sync env ops (initState tabs₀ active) (initState_sync tabs₀ active) t
    rw [hdoc] at hsync
    have hpe : lookupA (run env (initState tabs₀ active) ops).pageElements t = none := by
      cases hpe' : lookupA (run env (initState tabs₀ active) ops).pageElements t with
      | none => rfl
      | some v => rw [hpe'] at hsync; cases hsync
    exact closeDocument_eq_self _ t hdoc hpe

/-- Witness for C5: closing tab 0 of the concrete loaded state destroys its
handle and clears both registries; closing the never-loaded tab 5 changes
nothing. -/
theorem closeDocument_destroys_and_clears_witness :
    lookupA sW.documents 0 = some { id := 0, numPages := 2 } ∧
    lookupA (closeDocument sW 0).documents 0 = none ∧
    lookupA (closeDocument sW 0).pageElements 0 = none ∧
    ((0 : Nat), (0 : TabId)) ∉ (closeDocument sW 0).live ∧
    closeDocument sW 5 = sW := by
  have h := closeDocument_destroys_and_clears envW [(0, tabW)] (some 0)
    [Op.load (Except.ok 2) 0] 0
  have h5 := closeDocument_destroys_and_clears envW [(0, tabW)] (some 0)
    [Op.load (Except.ok 2) 0] 5
  have ha := h.1 { id := 0, numPages := 2 } (by decide)
  exact ⟨by decide, ha.1, ha.2.1, ha.2.2 0, h5.2 (by decide)⟩

/-- Claim C6: current-page detection is debounced by `scrollDetectDelayMs =
100` (the scroll handler itself never touches the page-number input or the
sidebar, it only schedules detection); detection selects the first (lowest
index) page whose rectangle vertically contains the container center; and
the tab's `currentPage`, the page-number input and the sidebar are updated
exactly when the detected page differs from the stored one. -/
theorem scroll_current_page_detection (s : RState) (pending : Option (TabId × Nat))
    (newTop : ℚ) (tabId : TabId) (containerRect : Rect) (geomP : Nat → Rect) :
    scrollDetectDelayMs = 100 ∧
    ((onScroll s pending newTop).1.pageNumberInput = s.pageNumberInput ∧
     (onScroll s pending newTop).1.sidebarCurrent = s.sidebarCurrent ∧
     ∀ tid, s.activeTab = some tid →
       (onScroll s pending newTop).2 = some (tid, scrollDetectDelayMs)) ∧
    (∀ pages, lookupA s.pageElements tabId = some pages →
      ∀ i, firstContainingIdx (containerRect.top + containerRect.height / 2)
          ((List.range pages.length).map geomP) = some i →
        (i < pages.length ∧
         containsCenter (containerRect.top + containerRect.height / 2) (geomP i) = true ∧
         ∀ j, j < i →
           containsCenter (containerRect.top + containerRect.height / 2) (geomP j) = false) ∧
        ∀ tab, lookupA s.tabs tabId = some tab →
          (tab.currentPage = some (i + 1) →
            detectCurrentPage s tabId containerRect geomP = s) ∧
          (tab.currentPage ≠ some (i + 1) →
            lookupA (detectCurrentPage s tabId containerRect geomP).tabs tabId =
              some { tab with currentPage := some (i + 1) } ∧
            (detectCurrentPage s tabId containerRect geomP).pageNumberInput = some (i + 1) ∧
            lookupA (detectCurrentPage s tabId containerRect geomP).sidebarCurrent tabId =
              some (i + 1))) := by
  refine ⟨rfl, ⟨?_, ?_, ?_⟩, ?_⟩
  · unfold onScroll
    cases s.activeTab with
    | none => rfl
    | some tid => rw [updateTab_pageNumberInput]
  · unfold onScroll
    cases s.activeTab with
    | none => rfl
    | some tid => rw [updateTab_sidebarCurrent]
  · intro tid htid
    unfold onScroll
    rw [htid]
  · intro pages hpages i hfirst
    obtain ⟨hi, hc, hmin⟩ := firstContainingIdx_mem _ _ _ hfirst
    have hlen : ((List.range pages.length).map geomP).length = pages.length := by
      rw [List.length_map, List.length_range]
    have hget : ∀ (j : Nat) (hj : j < ((List.range pages.length).map geomP).length),
        ((List.range pages.length).map geomP).get ⟨j, hj⟩ = geomP j := by
      intro j hj
      simp
    constructor
    · refine ⟨hlen ▸ hi, ?_, ?_⟩
      · rw [← hget i hi]; exact hc
      · intro j hji
        have hj : j < ((List.range pages.length).map geomP).length :=
          Nat.lt_trans hji hi
        rw [← hget j hj]
        exact hmin j hj hji
    · intro tab htab
      constructor
      · intro heq
        simp only [detectCurrentPage, hpages, hfirst, htab]
        rw [if_neg (fun hcontra => hcontra heq)]
      · intro hne
        simp only [detectCurrentPage, hpages, hfirst, htab]
        rw [if_pos hne]
        exact ⟨by rw [lookupA_setA, if_pos rfl], rfl, by rw [lookupA_setA, if_pos rfl]⟩

/-- Witness for C6: in the concrete loaded state the container center 50
falls inside page 1 (index 1) and not page 0, the stored current page is 1,
so detection moves everything to page 2. -/
theorem scroll_current_page_detection_witness :
    scrollDetectDelayMs = 100 ∧
    (detectCurrentPage sW 0 rectW geomW).pageNumberInput = some 2 ∧
    lookupA (detectCurrentPage sW 0 rectW geomW).sidebarCurrent 0 = some 2 := by
  have h := scroll_current_page_detection sW none 0 0 rectW geomW
  have hfirst : firstContainingIdx (rectW.top + rectW.height / 2)
      ((List.range 2).map geomW) = some 1 := by
    show firstContainingIdx (rectW.top + rectW.height / 2) [geomW 0, geomW 1] = some 1
    norm_num [firstContainingIdx, containsCenter, geomW, rectW, Rect.bottom]
  have h3 := h.2.2 _ rfl 1 hfirst
  have h4 := (h3.2 tabW rfl).2 (by decide)
  exact ⟨h.1, h4.2.1, h4.2.2⟩

/-- Claim C7: the canvas backing store is `⌊viewport width × dpr⌋ by
⌊viewport height × dpr⌋` while the canvas CSS size and the page container
size stay at the logical viewport size; an unavailable `devicePixelRatio`
defaults to 1. -/
theorem highDpi_canvas_sizes (env : Env) (doc : PdfDoc) (pageNum : Nat) (tab : Tab)
    (tabId : TabId) :
    ((createPageContainer env doc pageNum tab tabId).1.canvasWidth =
      ⌊(env.viewportOf doc.id pageNum (jsOrQ tab.zoom 1) (jsOrI tab.rotation 0)).1 *
        jsOrQ env.dpr 1⌋ ∧
     (createPageContainer env doc pageNum tab tabId).1.canvasHeight =
      ⌊(env.viewportOf doc.id pageNum (jsOrQ tab.zoom 1) (jsOrI tab.rotation 0)).2 *
        jsOrQ env.dpr 1⌋ ∧
     (createPageContainer env doc pageNum tab tabId).1.canvasStyleWidth =
      (env.viewportOf doc.id pageNum (jsOrQ tab.zoom 1) (jsOrI tab.rotation 0)).1 ∧
     (createPageContainer env doc pageNum tab tabId).1.canvasStyleHeight =
      (env.viewportOf doc.id pageNum (jsOrQ tab.zoom 1) (jsOrI tab.rotation 0)).2 ∧
     (createPageContainer env doc pageNum tab tabId).1.styleWidth =
      (env.viewportOf doc.id pageNum (jsOrQ tab.zoom 1) (jsOrI tab.rotation 0)).1 ∧
     (createPageContainer env doc pageNum tab tabId).1.styleHeight =
      (env.viewportOf doc.id pageNum (jsOrQ tab.zoom 1) (jsOrI tab.rotation 0)).2) ∧
    (env.dpr = none → jsOrQ env.dpr 1 = 1) := by
  constructor
  · exact ⟨rfl, rfl, rfl, rfl, rfl, rfl⟩
  · intro h; rw [h]; rfl

/-- Witness for C7: with `envTL` (dpr unavailable, viewport 100×200 at zoom
1) the backing store is 100×200 and the defaulted dpr is 1. -/
theorem highDpi_canvas_sizes_witness :
    envTL.dpr = none ∧
    jsOrQ envTL.dpr 1 = 1 ∧
    (createPageContainer envTL { id := 0, numPages := 1 } 1 tabW 0).1.canvasWidth = 100 ∧
    (createPageContainer envTL { id := 0, numPages := 1 } 1 tabW 0).1.styleWidth = 100 := by
  have h := highDpi_canvas_sizes envTL { id := 0, numPages := 1 } 1 tabW 0
  refine ⟨rfl, h.2 rfl, ?_, ?_⟩
  · rw [h.1.1]
    show ⌊(100 : ℚ) * 1⌋ = 100
    norm_num
  · rw [h.1.2.2.2.2.1]
    rfl

/-- Claim C8 (code bug in the source): `setRotation` never stores its
`rotation` argument on the tab — the function's result does not depend on
that argument at all — so after `setRotation(0, 90)` on the concrete loaded
state the tab's rotation is still 0 and the re-render rasterized the page at
rotation 0 (logical width 100, not the rotated 200). -/
theorem setRotation_never_stores_rotation :
    (lookupA (setRotation envW sW 0 90).tabs 0).map Tab.rotation = some (some 0) ∧
    (setRotation envW sW 0 90).viewerChildren.map PageContainer.styleWidth = [100, 100] ∧
    ∀ (env : Env) (s : RState) (t : TabId) (r₁ r₂ : Int),
      setRotation env s t r₁ = setRotation env s t r₂ := by
  refine ⟨by decide, rfl, ?_⟩
  intro env s t r₁ r₂
  rfl

/-- Claim C9: `goToPage` is a complete no-op — no scrolling, no
`currentPage` change, no input or sidebar update — when the tab has no
page-element entry or the requested page is outside `1 .. pages.length`. -/
theorem goToPage_out_of_range_noop (s : RState) (tabId : TabId) (pageNum : Int) :
    (lookupA s.pageElements tabId = none → goToPage s tabId pageNum = s) ∧
    (∀ pages, lookupA s.pageElements tabId = some pages →
      (pageNum < 1 ∨ pageNum > (pages.length : Int)) → goToPage s tabId pageNum = s) := by
  constructor
  · intro h; unfold goToPage; rw [h]
  · intro pages h hrange
    unfold goToPage
    rw [h]
    simp only [if_pos hrange]

/-- Witness for C9: in the concrete loaded state (2 pages in tab 0), jumping
to page 10 of tab 0, to page 0 of tab 0, or anywhere in the never-loaded tab
5 leaves the state untouched. -/
theorem goToPage_out_of_range_noop_witness :
    goToPage sW 5 1 = sW ∧ goToPage sW 0 10 = sW ∧ goToPage sW 0 0 = sW := by
  refine ⟨(goToPage_out_of_range_noop sW 5 1).1 (by decide), ?_, ?_⟩
  · exact (goToPage_out_of_range_noop sW 0 10).2 _ rfl (by decide)
  · exact (goToPage_out_of_range_noop sW 0 0).2 _ rfl (by decide)

/-- Claim C10: over every operation sequence from the constructor state, a
tab has a document-registry entry exactly when it has a
page-element-registry entry. -/
theorem registries_cover_same_tabs (env : Env) (tabs₀ : List (TabId × Tab))
    (active : Option TabId) (ops : List Op) (t : TabId) :
    (lookupA (run env (initState tabs₀ active) ops).documents t).isSome =
    (lookupA (run env (initState tabs₀ active) ops).pageElements t).isSome :=
  run_sync env ops (initState tabs₀ active) (initState_sync tabs₀ active) t

end Eigen
